import Mathlib

/-!
Verification of the `chainer` crate: two build modes of universal call
chaining.  Rust references are embedded by explicit state passing:

* a step function `FnOnce(&S) -> R` may read the subject and perform
  side effects on its captured environment (for example a global atomic
  counter), so it is embedded as `S → σ → R × σ`, where `σ` is the
  external environment threaded through the computation;
* a step function `FnOnce(&mut S) -> R` may additionally mutate the
  subject, so it is embedded as `S → σ → R × S × σ` (result, subject
  after the call, environment after the call);
* a chain operation that returns `&Self` (basic mode) is embedded as a
  function returning the subject value reachable through that reference
  together with the environment after the operation;
* the wrapper types of the results mode hold `this : &'a S` /
  `this : &'a mut S`; a wrapper is embedded as a structure holding the
  subject value reachable through that reference, plus the owned result.
-/

namespace Chainer

namespace Basic

/-- basic.rs, `CallChain::chain`:
`fn chain<R, F: FnOnce(&Self) -> R>(&self, f: F) -> &Self { f(self); self }`.
The step function is invoked once on a shared borrow of the subject, its
return value is discarded, and the subject reference is returned. -/
def chain {S σ R : Type} (s : S) (f : S → σ → R × σ) (env : σ) : S × σ :=
  (s, (f s env).2)

/-- basic.rs, `CallChainMut::chain_mut`:
`fn chain_mut<R, F: FnOnce(&mut Self) -> R>(&mut self, f: F) -> &mut Self { f(self); self }`.
The step function is invoked once on an exclusive borrow of the subject,
its return value is discarded, and the (possibly mutated) subject
reference is returned. -/
def chain_mut {S σ R : Type} (s : S) (f : S → σ → R × S × σ) (env : σ) : S × σ :=
  ((f s env).2.1, (f s env).2.2)

end Basic

namespace Results

/-- results.rs, `CallChainResult<'a, S, R> { this: &'a S, result: R }`:
the immutable chain wrapper, holding the borrowed subject and the
result of the chained function. -/
structure CallChainResult (S R : Type) where
  this : S
  result : R

/-- results.rs, `CallChainResultMut<'a, S, R> { this: &'a mut S, result: R }`:
the mutable chain wrapper, holding the exclusively borrowed subject and
the result of the chained function. -/
structure CallChainResultMut (S R : Type) where
  this : S
  result : R

/-- results.rs, the blanket `impl<T: ?Sized> CallChain for T`:
`default fn chain(&self, f) -> CallChainResult { CallChainResult { result: f(self), this: self } }`. -/
def chain {S σ R : Type} (s : S) (f : S → σ → R × σ) (env : σ) :
    CallChainResult S R × σ :=
  (⟨s, (f s env).1⟩, (f s env).2)

/-- results.rs, the blanket `impl<T: ?Sized> CallChainMut for T`:
`default fn chain_mut(&mut self, f) -> CallChainResultMut { CallChainResultMut { result: f(self), this: self } }`. -/
def chain_mut {S σ R : Type} (s : S) (f : S → σ → R × S × σ) (env : σ) :
    CallChainResultMut S R × σ :=
  (⟨(f s env).2.1, (f s env).1⟩, (f s env).2.2)

/-- results.rs, `CallChainResult::into_result`: `pub fn into_result(self) -> R { self.result }`. -/
def CallChainResult.into_result {S R : Type} (w : CallChainResult S R) : R :=
  w.result

/-- results.rs, `impl AsRef<S> for CallChainResult`: `fn as_ref(&self) -> &S { self.this }`. -/
def CallChainResult.as_ref {S R : Type} (w : CallChainResult S R) : S :=
  w.this

/-- results.rs, `impl Deref for CallChainResult`: `fn deref(&self) -> &R { &self.result }`. -/
def CallChainResult.deref {S R : Type} (w : CallChainResult S R) : R :=
  w.result

/-- results.rs, `impl<S, T> CallChain<S> for CallChainResult<'_, S, T>`:
`fn chain(&self, f) -> CallChainResult { CallChainResult { result: f(self.this), this: self.this } }`. -/
def CallChainResult.chain {S σ T R : Type} (w : CallChainResult S T)
    (f : S → σ → R × σ) (env : σ) : CallChainResult S R × σ :=
  (⟨w.this, (f w.this env).1⟩, (f w.this env).2)

/-- results.rs, `CallChainResultMut::into_result`: `pub fn into_result(self) -> R { self.result }`. -/
def CallChainResultMut.into_result {S R : Type} (w : CallChainResultMut S R) : R :=
  w.result

/-- results.rs, `impl AsRef<S> for CallChainResultMut`: `fn as_ref(&self) -> &S { self.this }`. -/
def CallChainResultMut.as_ref {S R : Type} (w : CallChainResultMut S R) : S :=
  w.this

/-- results.rs, `impl AsMut<S> for CallChainResultMut`: `fn as_mut(&mut self) -> &mut S { self.this }`. -/
def CallChainResultMut.as_mut {S R : Type} (w : CallChainResultMut S R) : S :=
  w.this

/-- results.rs, `impl Deref for CallChainResultMut`: `fn deref(&self) -> &R { &self.result }`. -/
def CallChainResultMut.deref {S R : Type} (w : CallChainResultMut S R) : R :=
  w.result

/-- results.rs, `impl DerefMut for CallChainResultMut`:
`fn deref_mut(&mut self) -> &mut R { &mut self.result }`.  An assignment
through the returned reference (or through the public `result` field)
stores a new value in the wrapper's `result` field; this embedding models
such a write. -/
def CallChainResultMut.deref_mut_write {S R : Type} (w : CallChainResultMut S R)
    (r : R) : CallChainResultMut S R :=
  ⟨w.this, r⟩

/-- results.rs, `impl<S, T> CallChain<S> for CallChainResultMut<'_, S, T>`:
`fn chain(&self, f) -> CallChainResult { CallChainResult { result: f(self.this), this: self.this } }`. -/
def CallChainResultMut.chain {S σ T R : Type} (w : CallChainResultMut S T)
    (f : S → σ → R × σ) (env : σ) : CallChainResult S R × σ :=
  (⟨w.this, (f w.this env).1⟩, (f w.this env).2)

/-- results.rs, `impl<S, T> CallChainMut<S> for CallChainResultMut<'_, S, T>`:
`fn chain_mut(&mut self, f) -> CallChainResultMut { CallChainResultMut { result: f(self.this), this: self.this } }`. -/
def CallChainResultMut.chain_mut {S σ T R : Type} (w : CallChainResultMut S T)
    (f : S → σ → R × S × σ) (env : σ) : CallChainResultMut S R × σ :=
  (⟨(f w.this env).2.1, (f w.this env).1⟩, (f w.this env).2.2)

end Results

/-- tests.rs, `Counter::increment` of `test_basic_mutable` and
`test_results_mutable`: `fn increment(&mut self) -> i32 { self.value += 1; self.value }`.
The counter value is the subject; there is no external environment. -/
def Counter.increment (v : Int) (_u : Unit) : Int × Int × Unit :=
  (v + 1, v + 1, ())

/-- tests.rs, `Counter::increment` of `test_immutable`:
`fn increment(&self) { COUNTER.fetch_add(1, Ordering::Relaxed); }`.
The global atomic `COUNTER` is the external environment; the subject is
the unit struct `Counter` and the return value is unit. -/
def Counter.incrementAtomic (_s : Unit) (c : Nat) : Unit × Nat :=
  ((), c + 1)

/-- Claim C1: in extended (results) mode, for every subject and every
sequence of three chain steps producing results r1, r2, r3, the final
wrapper's `result` field (equivalently `into_result`) is exactly r3, the
result of the most recent step, and the subject reachable from the final
wrapper via `as_ref` is the subject present before the first step: for
immutable chaining it is the original subject unchanged, and for mutable
chaining it is that same subject as mutated by the three steps applied
directly in order (not a copy, intermediate wrapper, or result); in the
concrete counter test, three chained increments from 0 give result 3 and a
subject equal to 3. -/
theorem results_chain3_last_result_and_subject
    {S σ R1 R2 R3 : Type} (s : S) (env : σ)
    (f1 : S → σ → R1 × σ) (f2 : S → σ → R2 × σ) (f3 : S → σ → R3 × σ)
    (g1 : S → σ → R1 × S × σ) (g2 : S → σ → R2 × S × σ) (g3 : S → σ → R3 × S × σ) :
    (let p1 := Results.chain s f1 env
     let p2 := Results.CallChainResult.chain p1.1 f2 p1.2
     let p3 := Results.CallChainResult.chain p2.1 f3 p2.2
     p3.1.result = (f3 s p2.2).1 ∧ p3.1.into_result = (f3 s p2.2).1
       ∧ p3.1.as_ref = s)
    ∧
    (let q1 := Results.chain_mut s g1 env
     let q2 := Results.CallChainResultMut.chain_mut q1.1 g2 q1.2
     let q3 := Results.CallChainResultMut.chain_mut q2.1 g3 q2.2
     let d1 := g1 s env
     let d2 := g2 d1.2.1 d1.2.2
     let d3 := g3 d2.2.1 d2.2.2
     q3.1.result = d3.1 ∧ q3.1.into_result = d3.1 ∧ q3.1.as_ref = d3.2.1)
    ∧
    (let t1 := Results.chain_mut (0 : Int) Counter.increment ()
     let t2 := Results.CallChainResultMut.chain_mut t1.1 Counter.increment t1.2
     let t3 := Results.CallChainResultMut.chain_mut t2.1 Counter.increment t2.2
     t3.1.result = 3 ∧ t3.1.as_ref = 3) := by
  refine ⟨⟨rfl, rfl, rfl⟩, ⟨rfl, rfl, rfl⟩, ?_, ?_⟩ <;> decide

/-- Claim C2: applying mutating steps f1, f2, f3 in sequence via
`chain_mut` (basic mode) leaves the subject in exactly the state produced
by calling f1, then f2, then f3 directly in order, with the environment
likewise advanced in order; concretely, a counter starting at 0 chained
through three increment-and-return-new-value steps ends at 3 with the
steps returning 1, 2, 3 in that order. -/
theorem basic_chain_mut_sequential
    {S σ R1 R2 R3 : Type} (s : S) (env : σ)
    (g1 : S → σ → R1 × S × σ) (g2 : S → σ → R2 × S × σ) (g3 : S → σ → R3 × S × σ) :
    (let p1 := Basic.chain_mut s g1 env
     let p2 := Basic.chain_mut p1.1 g2 p1.2
     let p3 := Basic.chain_mut p2.1 g3 p2.2
     let d1 := g1 s env
     let d2 := g2 d1.2.1 d1.2.2
     let d3 := g3 d2.2.1 d2.2.2
     p3 = (d3.2.1, d3.2.2))
    ∧
    (let c1 := Basic.chain_mut (0 : Int) Counter.increment ()
     let c2 := Basic.chain_mut c1.1 Counter.increment c1.2
     let c3 := Basic.chain_mut c2.1 Counter.increment c2.2
     c3.1 = 3
       ∧ (Counter.increment 0 ()).1 = 1
       ∧ (Counter.increment c1.1 c1.2).1 = 2
       ∧ (Counter.increment c2.1 c2.2).1 = 3) := by
  exact ⟨rfl, by decide, by decide, by decide, by decide⟩

/-- Claim C3: in basic mode, `chain f` invokes f exactly once on a shared
borrow of the subject (the environment advances by exactly one application
of f), discards f's return value, and returns the original subject itself
unchanged, so a further chained call still operates on that same
subject. -/
theorem basic_chain_identity
    {S σ R T : Type} (s : S) (f : S → σ → R × σ) (env : σ) (g : S → σ → T × σ) :
    (Basic.chain s f env).1 = s
    ∧ (Basic.chain s f env).2 = (f s env).2
    ∧ Basic.chain (Basic.chain s f env).1 g (Basic.chain s f env).2
        = (s, (g s (f s env).2).2) :=
  ⟨rfl, rfl, rfl⟩

/-- Claim C4: every chain operation (immutable or mutable, basic or
results mode) executes the supplied step exactly once per call: the
environment after one chain call is exactly the environment after a
single application of the step function; consequently the atomic counter
of the immutable test, incremented once per chained call and chained
three times, ends at exactly 3. -/
theorem chain_executes_step_exactly_once
    {S σ R : Type} (s : S) (f : S → σ → R × σ) (g : S → σ → R × S × σ) (env : σ) :
    (Basic.chain s f env).2 = (f s env).2
    ∧ (Basic.chain_mut s g env).2 = (g s env).2.2
    ∧ (Results.chain s f env).2 = (f s env).2
    ∧ (Results.chain_mut s g env).2 = (g s env).2.2
    ∧ (let a1 := Basic.chain () Counter.incrementAtomic 0
       let a2 := Basic.chain a1.1 Counter.incrementAtomic a1.2
       let a3 := Basic.chain a2.1 Counter.incrementAtomic a2.2
       a3.2 = 3) :=
  ⟨rfl, rfl, rfl, rfl, rfl⟩

/-- Claim C5: in extended mode, retrieving the result from a wrapper
(reading the `result` field, calling `into_result`, or dereferencing) is
a pure read of the value computed during the chain call — it equals the
value the step function produced there, consumes no environment, and all
retrieval paths agree with the stored `result` field. -/
theorem results_retrieval_pure
    {S σ R : Type} (s : S) (f : S → σ → R × σ) (g : S → σ → R × S × σ) (env : σ)
    (w : Results.CallChainResult S R) (wm : Results.CallChainResultMut S R) :
    (Results.chain s f env).1.into_result = (f s env).1
    ∧ (Results.chain s f env).1.deref = (f s env).1
    ∧ (Results.chain s f env).1.result = (f s env).1
    ∧ (Results.chain_mut s g env).1.into_result = (g s env).1
    ∧ (Results.chain_mut s g env).1.deref = (g s env).1
    ∧ (Results.chain_mut s g env).1.result = (g s env).1
    ∧ w.into_result = w.result ∧ w.deref = w.result
    ∧ wm.into_result = wm.result ∧ wm.deref = wm.result :=
  ⟨rfl, rfl, rfl, rfl, rfl, rfl, rfl, rfl, rfl, rfl⟩

/-- Claim C6: in extended mode, the mutable-chain wrapper supports both
further immutable chaining and further mutable chaining, and either
applies the next step to the underlying subject held by the wrapper —
the original subject as left by the previous step — never to the wrapper
itself or to the previous result. -/
theorem mut_wrapper_chains_on_subject
    {S σ T R U : Type} (s : S) (f0 : S → σ → T × S × σ) (env : σ)
    (g : S → σ → R × σ) (h : S → σ → U × S × σ) :
    (let p := Results.chain_mut s f0 env
     (Results.CallChainResultMut.chain p.1 g p.2).1.result = (g p.1.this p.2).1
     ∧ (Results.CallChainResultMut.chain p.1 g p.2).1.as_ref = p.1.this
     ∧ (Results.CallChainResultMut.chain_mut p.1 h p.2).1.result = (h p.1.this p.2).1
     ∧ (Results.CallChainResultMut.chain_mut p.1 h p.2).1.as_ref = (h p.1.this p.2).2.1
     ∧ p.1.this = (f0 s env).2.1) :=
  ⟨rfl, rfl, rfl, rfl, rfl⟩

/-- Claim C7: every type automatically possesses both chain capabilities
with no per-type opt-in: for every type S, every subject of type S and
every step function, `chain` and `chain_mut` (both modes) are defined and
behave as specified, mirroring the universal blanket implementations. -/
theorem blanket_chain_on_every_type :
    ∀ (S σ R : Type) (s : S) (f : S → σ → R × σ) (g : S → σ → R × S × σ) (env : σ),
      Basic.chain s f env = (s, (f s env).2)
      ∧ Basic.chain_mut s g env = ((g s env).2.1, (g s env).2.2)
      ∧ (Results.chain s f env).1.as_ref = s
      ∧ (Results.chain s f env).1.result = (f s env).1
      ∧ (Results.chain_mut s g env).1.as_ref = (g s env).2.1
      ∧ (Results.chain_mut s g env).1.result = (g s env).1 :=
  fun _ _ _ _ _ _ _ => ⟨rfl, rfl, rfl, rfl, rfl, rfl⟩

/-- Claim C8: the chain mechanism is agnostic to how the step function
signals failure and adds no error path of its own: for any return type,
including `Option` and `Except` (the embedding of Rust's `Option` and
`Result`), the chain forwards exactly the value the step returned as the
chain's result, and the (total) chain operations themselves introduce no
failure. -/
theorem chain_forwards_step_return
    {S σ R E : Type} (s : S) (env : σ)
    (f : S → σ → R × σ) (g : S → σ → R × S × σ)
    (fo : S → σ → Option R × σ) (fe : S → σ → Except E R × σ)
    (go : S → σ → Option R × S × σ) :
    (Results.chain s f env).1.result = (f s env).1
    ∧ (Results.chain_mut s g env).1.result = (g s env).1
    ∧ (Results.chain s fo env).1.result = (fo s env).1
    ∧ (Results.chain s fe env).1.result = (fe s env).1
    ∧ (Results.chain_mut s go env).1.result = (go s env).1 :=
  ⟨rfl, rfl, rfl, rfl, rfl⟩

/-- Claim C9: writing the result through the mutable wrapper (via
`DerefMut` or the public `result` field) modifies only the stored result:
the subject held by the wrapper is unchanged, and a subsequent chain step
on the written wrapper behaves exactly as on the original wrapper,
operating on the same unmodified subject. -/
theorem write_result_frame
    {S σ R T U : Type} (w : Results.CallChainResultMut S R) (r : R)
    (g : S → σ → T × S × σ) (g2 : S → σ → U × σ) (env : σ) :
    (w.deref_mut_write r).this = w.this
    ∧ (w.deref_mut_write r).as_ref = w.as_ref
    ∧ (w.deref_mut_write r).as_mut = w.as_mut
    ∧ (w.deref_mut_write r).result = r
    ∧ Results.CallChainResultMut.chain_mut (w.deref_mut_write r) g env
        = Results.CallChainResultMut.chain_mut w g env
    ∧ Results.CallChainResultMut.chain (w.deref_mut_write r) g2 env
        = Results.CallChainResultMut.chain w g2 env :=
  ⟨rfl, rfl, rfl, rfl, rfl, rfl⟩

/-- Claim C10: chain operations are deterministic and depend on nothing
but the subject, the environment and the step function's behaviour there:
two runs on equal subjects and environments, with step functions that
agree at that subject and environment, produce equal outputs (equal
results, equal final subjects, equal final environments) for every chain
operation of either mode. -/
theorem chain_deterministic
    {S σ R : Type} (s₁ s₂ : S) (env₁ env₂ : σ)
    (f₁ f₂ : S → σ → R × σ) (g₁ g₂ : S → σ → R × S × σ)
    (hs : s₁ = s₂) (he : env₁ = env₂)
    (hf : f₁ s₁ env₁ = f₂ s₂ env₂) (hg : g₁ s₁ env₁ = g₂ s₂ env₂) :
    Basic.chain s₁ f₁ env₁ = Basic.chain s₂ f₂ env₂
    ∧ Basic.chain_mut s₁ g₁ env₁ = Basic.chain_mut s₂ g₂ env₂
    ∧ Results.chain s₁ f₁ env₁ = Results.chain s₂ f₂ env₂
    ∧ Results.chain_mut s₁ g₁ env₁ = Results.chain_mut s₂ g₂ env₂ := by
  subst hs; subst he
  exact ⟨by simp only [Basic.chain, hf],
         by simp only [Basic.chain_mut, hg],
         by simp only [Results.chain, hf],
         by simp only [Results.chain_mut, hg]⟩

/-- Witness for C10: the determinism theorem applied at concrete inputs,
with two syntactically different step functions that agree at the given
subject and environment. -/
theorem chain_deterministic_witness :
    Basic.chain (2 : Nat) (fun s c => (s + c, c + 1)) (3 : Nat)
        = Basic.chain 2 (fun s c => (c + s, c + 1)) 3
    ∧ Basic.chain_mut (2 : Nat) (fun s c => (s + c, s, c + 1)) (3 : Nat)
        = Basic.chain_mut 2 (fun s c => (c + s, s, c + 1)) 3
    ∧ Results.chain (2 : Nat) (fun s c => (s + c, c + 1)) (3 : Nat)
        = Results.chain 2 (fun s c => (c + s, c + 1)) 3
    ∧ Results.chain_mut (2 : Nat) (fun s c => (s + c, s, c + 1)) (3 : Nat)
        = Results.chain_mut 2 (fun s c => (c + s, s, c + 1)) 3 :=
  chain_deterministic 2 2 3 3 _ _ _ _ rfl rfl (by decide) (by decide)

end Chainer
